import Mathlib

/-!
Verification development for the banking-agent semantic-routing demo.

The Python sources are shallowly embedded:
  * `src/orchestrator.py` — the turn-handling pipeline (`route_intent_node`,
    `parse_slots_node`, `decide_next_node`, `call_tool_node`,
    `summarize_node`, `should_continue`, `extract_slots_from_context`,
    `handle_turn`);
  * `src/tools/*.py` — the six registered tools;
  * the external collaborators (RedisVL semantic router, LLM slot extractor)
    are modelled as oracle inputs, matching the spec's "opaque classifier /
    opaque extractor" contracts;
  * ambient runtime state read by the tools (`random.randint`,
    `datetime.now`) is made explicit as an `Env` value passed to each tool:
    one `Env` per invocation.

Python dynamic values are modelled by the `Value` inductive; Python dicts by
insertion-ordered association lists with `dget` / `dset`.
-/

namespace BankDemo

/-- A Python runtime value as it occurs in slot maps and tool parameters. -/
inductive Value where
  | nat  (n : Nat)
  | num  (q : ℚ)
  | str  (s : String)
  | bool (b : Bool)
  deriving Repr, DecidableEq

/-- A Python dict (insertion-ordered association list, unique keys). -/
abbrev Dict := List (String × Value)

/-- Dict lookup `d[k]`, returning `none` when the key is absent. -/
def dget (d : Dict) (k : String) : Option Value :=
  match d with
  | [] => none
  | p :: rest => if p.1 = k then some p.2 else dget rest k

/-- Python `d.get(k, v)` — lookup with default. -/
def dgetD (d : Dict) (k : String) (v : Value) : Value :=
  (dget d k).getD v

/-- Python `d[k] = v` — replace in place if the key exists, else append
(Python dicts keep insertion order). -/
def dset (d : Dict) (k : String) (v : Value) : Dict :=
  if (dget d k).isSome then
    d.map (fun p => if p.1 = k then (k, v) else p)
  else
    d ++ [(k, v)]

/-- The keys of a dict. -/
def dkeys (d : Dict) : List String := d.map Prod.fst

/-! ### String helpers mirroring the Python primitives used by the code -/

/-- Does `needle` occur at the head of `hay`? (exact characters) -/
def headMatches : List Char → List Char → Bool
  | [], _ => true
  | _ :: _, [] => false
  | a :: as, b :: bs => a == b && headMatches as bs

/-- Python's `needle in hay` substring test on strings. -/
def subListIn (needle : List Char) : List Char → Bool
  | [] => headMatches needle []
  | c :: rest => headMatches needle (c :: rest) || subListIn needle rest

/-- Python `needle in hay` (substring containment). -/
def containsSub (hay needle : String) : Bool :=
  subListIn needle.data hay.data

/-- Does lowercase word `w` occur at the head of `l`, comparing
case-insensitively (Python `re.IGNORECASE` on ASCII)? Returns the remainder
after the match. -/
def headMatchesCI : List Char → List Char → Option (List Char)
  | [], l => some l
  | _ :: _, [] => none
  | a :: as, b :: bs => if a == b.toLower then headMatchesCI as bs else none

/-- Split a character list on whitespace runs, dropping empty pieces
(the behaviour of Python `str.split()` with no argument). `acc` is the
current token being accumulated, in reverse. -/
def splitWsAux : List Char → List Char → List (List Char)
  | [], acc => if acc.isEmpty then [] else [acc.reverse]
  | c :: rest, acc =>
    if c.isWhitespace then
      if acc.isEmpty then splitWsAux rest [] else acc.reverse :: splitWsAux rest []
    else splitWsAux rest (c :: acc)

/-- Python `str.split()` — whitespace-separated tokens. -/
def pySplit (s : String) : List String :=
  (splitWsAux s.data []).map String.mk

/-- Python `str.strip()` — drop leading and trailing whitespace. -/
def pyStrip (s : String) : String :=
  String.mk (((s.data.dropWhile Char.isWhitespace).reverse.dropWhile
    Char.isWhitespace).reverse)

/-- Python `str.lower()` (ASCII model, which covers all routed keywords). -/
def pyLower (s : String) : String :=
  String.mk (s.data.map Char.toLower)

/-- Python `str.upper()` (ASCII model). -/
def pyUpper (s : String) : String :=
  String.mk (s.data.map Char.toUpper)

/-- Python `str.isdigit()` (restricted to ASCII digits, which is all the
code's inputs use): non-empty and all characters are digits. -/
def pyIsDigit (s : String) : Bool :=
  !s.data.isEmpty && s.data.all Char.isDigit

/-- A regex word character (`\w`): alphanumeric or underscore (ASCII model). -/
def isWordChar (c : Char) : Bool :=
  c.isAlphanum || c == '_'

/-- Is the character before the current scan position a word character?
(`none` = start of string). -/
def prevIsWord : Option Char → Bool
  | none => false
  | some c => isWordChar c

/-- The regex boundary `\b` holds after a word-character run iff the next
character (if any) is not a word character. -/
def headNotWord : List Char → Bool
  | [] => true
  | c :: _ => !isWordChar c

/-- Numeric value of a digit run (Python `int(...)`). -/
def digitsVal (l : List Char) : Nat :=
  l.foldl (fun a c => a * 10 + (c.toNat - '0'.toNat)) 0

/-! ### Numeric coercions for dynamically typed tool parameters

The Python tools are called with whatever values sit in the slot dict.
Arithmetic on a non-numeric value raises a `TypeError`, which each tool's
`try`/`except` converts into an error-shaped result; the coercions below
returning `none` model that path. -/

/-- Read a value as a Python number (int or float, modelled by `ℚ`). -/
def Value.toQ : Value → Option ℚ
  | .nat n => some n
  | .num q => some q
  | _ => none

/-- Read a value as a non-negative integer (used where the Python code
needs an integer, e.g. an exponent). -/
def Value.toN : Value → Option Nat
  | .nat n => some n
  | .num q => if q.den = 1 ∧ 0 ≤ q.num then some q.num.toNat else none
  | _ => none

/-- Read a value as a Python string (anything else lacks the string methods
the tools call on it, raising inside the tool's `try`). -/
def Value.toS : Value → Option String
  | .str s => some s
  | _ => none

/-- Floor of a rational (denominators are positive, so flooring division of
num by den). -/
def ratFloor (q : ℚ) : ℤ := Int.fdiv q.num q.den

/-- Python `round(x, 2)` modelled at the rational level: round half to even
(Python rounds the nearest binary float; on the exact rational model the
half-even rule is the faithful counterpart). -/
def pyRound2 (q : ℚ) : ℚ :=
  let x := q * 100
  let f := ratFloor x
  let frac := x - (f : ℚ)
  let r : ℤ :=
    if frac < 1/2 then f
    else if 1/2 < frac then f + 1
    else if f % 2 = 0 then f else f + 1
  (r : ℚ) / 100

/-! ### Ambient runtime state

`src/tools/fraud.py` reads `random.randint(100000, 999999)` and
`datetime.now()`; `src/tools/forex.py` reads `datetime.now()`.  The embedding
makes that ambient state explicit: every tool invocation receives the `Env`
current at call time.  Pure tools simply ignore it. -/

/-- The ambient runtime state visible to a tool invocation: the value drawn
from the random generator and the rendered current time. -/
structure Env where
  rand : Nat
  now : String
  deriving Repr, DecidableEq

/-! ### Tool results (`{summary, bullets, data}` dicts) -/

/-- One credit card record of `CREDIT_CARDS` in `src/tools/cards.py`. -/
structure CardInfo where
  cname : String
  benefits : List String
  annual_fee : Nat
  min_income : Nat
  reward_rate : Nat
  deriving Repr, DecidableEq

/-- One entry of the `all_eligible` list in the cards tool's data. -/
structure CardBrief where
  ctype : String
  cname : String
  annual_fee : Nat
  deriving Repr, DecidableEq

/-- One FD of the `ladder` list in the savings tool's data
(`src/tools/savings.py`). -/
structure FDEntry where
  fd_number : Nat
  amount : ℚ
  tenure : Nat
  rate : ℚ
  interest : ℚ
  maturity_amount : ℚ
  deriving Repr, DecidableEq

/-- The `data` member of a tool result, one constructor per dict shape the
tools produce. -/
inductive ToolData where
  | emiData (emi total_payment total_interest principal rate : ℚ) (tenure : Nat)
  | cardsNoneEligible
  | cardsData (recommended_card : String) (card_details : CardInfo)
      (all_eligible : List CardBrief)
  | fdLadder (total_investment total_interest total_maturity effective_rate : ℚ)
      (ladder : List FDEntry)
  | policyMatch (matched_question : String) (confidence : String)
  | policyNoMatch
  | forexData (currency : String)
      (inr_amount foreign_amount exchange_rate card_rate card_amount : ℚ)
      (last_updated : String)
  | fraudData (case_id : String) (transaction_id : Value)
      (priority status created_at expected_resolution : String)
      (is_urgent : Bool)
  | errData (error : String)
  deriving Repr, DecidableEq

/-- The priority field of a fraud-tool data record, when the data has that
shape. -/
def ToolData.priorityOf : ToolData → Option String
  | .fraudData _ _ p _ _ _ _ => some p
  | _ => none

/-- The status field of a fraud-tool data record. -/
def ToolData.statusOf : ToolData → Option String
  | .fraudData _ _ _ s _ _ _ => some s
  | _ => none

/-- A tool result: `{summary, bullets, data}`.  Display strings (summary and
bullets) are kept structurally: the INR formatting helpers of the Python code
are abstracted to plain renderings, since no orchestration decision reads
them back. -/
structure ToolResult where
  summary : String
  bullets : List String
  data : ToolData
  deriving Repr, DecidableEq

/-! ### src/tools/fraud.py -/

/-- The urgency keywords of `handle_fraud_dispute_tool`. -/
def urgentKeywords : List String :=
  ["stolen", "lost", "unauthorized", "fraud", "block", "immediate"]

/-- Embedding of `handle_fraud_dispute_tool` (src/tools/fraud.py).
`case_id = f"CASE{random.randint(100000, 999999)}"` is modelled by drawing
`100000 + env.rand % 900000` from the ambient generator, and
`datetime.now().isoformat()` by `env.now`. -/
def handle_fraud_dispute_tool (env : Env) (transaction_id : Value)
    (description : String) : ToolResult :=
  let case_id := "CASE" ++ Nat.repr (100000 + env.rand % 900000)
  let is_urgent := urgentKeywords.any (fun kw => containsSub (pyLower description) kw)
  if is_urgent then
    { summary := "URGENT: Card blocked immediately! Your case ID is " ++ case_id ++
        ". Expected response time: Immediate (Card blocked within 5 minutes).",
      bullets := ["URGENT CASE REGISTERED", "Case ID: " ++ case_id,
        "Status: Card blocked immediately"],
      data := .fraudData case_id transaction_id "HIGH" "CARD_BLOCKED" env.now
        "Immediate (Card blocked within 5 minutes)" true }
  else
    { summary := "Dispute case registered. Your case ID is " ++ case_id ++
        ". Expected response time: 24-48 hours.",
      bullets := ["Dispute Case Registered", "Case ID: " ++ case_id],
      data := .fraudData case_id transaction_id "NORMAL" "UNDER_REVIEW" env.now
        "24-48 hours" false }

/-! ### src/tools/loans.py -/

/-- The error-shaped result of `calculate_emi_tool`'s `except` branch. -/
def emiError (msg : String) : ToolResult :=
  { summary := "Error calculating EMI: " ++ msg,
    bullets := ["Please check your input values and try again."],
    data := .errData msg }

/-- The successful result of `calculate_emi_tool`, given the exact EMI. -/
def emiResult (loan_amount interest_rate : ℚ) (tenure_months : Nat)
    (emi : ℚ) : ToolResult :=
  let total_payment := emi * tenure_months
  let total_interest := total_payment - loan_amount
  { summary := "Your EMI will be INR " ++ toString (pyRound2 emi) ++
      " per month for " ++ Nat.repr tenure_months ++ " months.",
    bullets := ["Monthly EMI", "Total Amount Payable", "Total Interest",
      "Principal", "Interest Rate", "Tenure"],
    data := .emiData (pyRound2 emi) (pyRound2 total_payment)
      (pyRound2 total_interest) loan_amount interest_rate tenure_months }

/-- Embedding of `calculate_emi_tool` (src/tools/loans.py).  A zero tenure
(or a zero denominator in the EMI formula) raises `ZeroDivisionError` in
Python, caught by the `except` branch; non-numeric parameters raise
`TypeError`, likewise caught. -/
def calculate_emi_tool (_env : Env) (loan_amount interest_rate tenure_months : Value) :
    ToolResult :=
  match loan_amount.toQ, interest_rate.toQ, tenure_months.toN with
  | some la, some ir, some n =>
    let monthly_rate := ir / 12 / 100
    if n = 0 then emiError "division by zero"
    else if monthly_rate = 0 then
      emiResult la ir n (la / (n : ℚ))
    else
      let p := (1 + monthly_rate) ^ n
      if p - 1 = 0 then emiError "division by zero"
      else emiResult la ir n (la * monthly_rate * p / (p - 1))
  | _, _, _ => emiError "TypeError"

/-! ### src/tools/cards.py -/

/-- The `CREDIT_CARDS` table, in dict insertion order. -/
def CREDIT_CARDS : List (String × CardInfo) :=
  [("travel", ⟨"DemoBank Travel Elite",
      ["5X rewards on travel", "Airport lounge access",
       "Complimentary travel insurance"], 2999, 500000, 5⟩),
   ("cashback", ⟨"DemoBank Cashback Plus",
      ["5% cashback on online shopping", "2% on dining",
       "Fuel surcharge waiver"], 999, 300000, 5⟩),
   ("premium", ⟨"DemoBank Platinum Reserve",
      ["10X rewards", "Concierge service", "Golf privileges",
       "Priority customer care"], 10000, 1500000, 10⟩),
   ("entry", ⟨"DemoBank Silver Card",
      ["1% rewards", "EMI conversion", "Online fraud protection"], 0, 200000, 1⟩)]

/-- Stable insertion of `x` into `l`: `x` goes after every element strictly
greater under the sort key. -/
def insStable (gt : α → α → Bool) (x : α) : List α → List α
  | [] => [x]
  | y :: ys => if gt y x then y :: insStable gt x ys else x :: y :: ys

/-- Stable sort placing elements with strictly greater key first — the
behaviour of Python `list.sort(key=..., reverse=True)`. -/
def stableSortDesc (gt : α → α → Bool) : List α → List α
  | [] => []
  | x :: xs => insStable gt x (stableSortDesc gt xs)

/-- The no-eligible-cards result of `recommend_card_tool`. -/
def cardsNoneResult : ToolResult :=
  { summary := "Based on your income, we recommend building your credit profile first.",
    bullets := ["Consider a secured credit card to start",
      "Minimum income required: INR 2,00,000 per annum",
      "You can reapply once your income increases"],
    data := .cardsNoneEligible }

/-- Embedding of `recommend_card_tool` (src/tools/cards.py). -/
def recommend_card_tool (_env : Env) (income preferred_benefits : Value) : ToolResult :=
  match income.toQ, preferred_benefits.toS with
  | some inc, some pb =>
    let bt0 := pyLower pb
    let benefit_type :=
      if bt0 = "travel" ∨ bt0 = "cashback" ∨ bt0 = "premium" ∨ bt0 = "general"
      then bt0 else "general"
    let eligible := CREDIT_CARDS.filter (fun p => (p.2.min_income : ℚ) ≤ inc)
    match stableSortDesc (fun a b => b.2.reward_rate < a.2.reward_rate) eligible with
    | [] => cardsNoneResult
    | top :: rest =>
      let sorted := top :: rest
      let pick : String × CardInfo :=
        if benefit_type ≠ "general" then
          match CREDIT_CARDS.find? (fun p => p.1 == benefit_type) with
          | some p => if (p.2.min_income : ℚ) ≤ inc then p else top
          | none => top
        else top
      { summary := "Based on your income, we recommend the " ++ pick.2.cname ++ ".",
        bullets := ("Recommended: " ++ pick.2.cname) :: pick.2.benefits,
        data := .cardsData pick.1 pick.2
          (sorted.map (fun p => ⟨p.1, p.2.cname, p.2.annual_fee⟩)) }
  | _, _ =>
    { summary := "Error recommending card: TypeError",
      bullets := ["Please try again with valid income information."],
      data := .errData "TypeError" }

/-! ### src/tools/savings.py -/

/-- The `FD_RATES` table (tenure in months to rate percent). -/
def FD_RATES : List (Nat × ℚ) :=
  [(6, mkRat 13 2), (12, 7), (24, mkRat 29 4), (36, mkRat 15 2), (60, mkRat 31 4)]

/-- One FD of the ladder: simple interest over the given months. -/
def mkFDEntry (total_amount : ℚ) (i : Nat) (split : Nat × ℚ) : FDEntry :=
  let months := split.1
  let amount := total_amount * split.2
  let rate := ((FD_RATES.find? (fun p => p.1 == months)).map Prod.snd).getD 7
  let interest := amount * rate * (months : ℚ) / (12 * 100)
  ⟨i, amount, months, rate, interest, amount + interest⟩

/-- Embedding of `suggest_fd_ladder_tool` (src/tools/savings.py).  A zero
total amount raises `ZeroDivisionError` when the effective return is
computed, caught by the `except` branch. -/
def suggest_fd_ladder_tool (_env : Env) (total_amount tenure_months : Value) :
    ToolResult :=
  match total_amount.toQ, tenure_months.toQ with
  | some ta, some tm =>
    let splits : List (Nat × ℚ) :=
      if tm ≤ 12 then [(6, mkRat 3 10), (6, mkRat 3 10), (12, mkRat 2 5)]
      else [(12, mkRat 1 4), (24, mkRat 1 4), (36, mkRat 1 4), (60, mkRat 1 4)]
    let ladder := splits.enum.map (fun p => mkFDEntry ta (p.1 + 1) p.2)
    let total_interest := (ladder.map FDEntry.interest).sum
    let total_maturity := (ladder.map FDEntry.maturity_amount).sum
    if ta = 0 then
      { summary := "Error creating FD ladder: division by zero",
        bullets := ["Please check your input values and try again."],
        data := .errData "division by zero" }
    else
      { summary := "Invest INR " ++ toString ta ++ " across " ++
          Nat.repr ladder.length ++ " FDs for optimal returns and liquidity.",
        bullets := ["Total Investment", "Total Interest Earned",
          "Total Maturity Value", "Effective Return", "FD Ladder Breakdown"],
        data := .fdLadder ta (pyRound2 total_interest) (pyRound2 total_maturity)
          (pyRound2 (total_interest / ta * 100)) ladder }
  | _, _ =>
    { summary := "Error creating FD ladder: TypeError",
      bullets := ["Please check your input values and try again."],
      data := .errData "TypeError" }

/-! ### src/tools/policy_rag.py -/

/-- The `POLICY_KB` table: key, question, answer, in dict insertion order. -/
def POLICY_KB : List (String × String × String) :=
  [("branch timings", "What are your branch timings?",
    "Our branches are open Monday to Friday from 10:00 AM to 4:00 PM, and Saturday from 10:00 AM to 1:00 PM. We are closed on Sundays and public holidays."),
   ("password reset", "How do I reset my password?",
    "To reset your password: 1) Visit the login page and click \x27Forgot Password\x27 2) Enter your registered email/phone 3) Verify OTP 4) Set new password. Password must be 8-16 characters with at least one uppercase, one number, and one special character."),
   ("kyc documents", "What documents do I need for KYC?",
    "For KYC verification, please provide: 1) Identity Proof (Aadhaar/PAN/Passport/Driving License) 2) Address Proof (Aadhaar/Utility Bill/Passport) 3) Recent photograph. All documents should be self-attested copies."),
   ("account closure", "How to close my account?",
    "To close your account: 1) Visit your home branch 2) Submit account closure form with passbook/checkbook 3) Clear any pending dues 4) Balance will be transferred via check/NEFT. Processing takes 7-10 business days."),
   ("service charges", "What are the service charges?",
    "Service charges vary by account type: Savings Account - 200/quarter if balance below minimum, ATM transactions - 5 free/month (20 thereafter), NEFT - Free, RTGS - 25-50 based on amount, Cheque book - 2/leaf."),
   ("privacy policy", "Tell me about your privacy policy",
    "We protect your data with bank-grade encryption. We never share personal information with third parties without consent. Your data is used only for banking services. You can request data deletion anytime. Full policy at demobank.com/privacy")]

/-- Keyword-overlap score of a query word set against one KB entry:
the number of distinct query words appearing in `set(key.split() +
question.lower().split())`. -/
def policyOverlap (qWords : List String) (entry : String × String × String) : Nat :=
  let pWords := pySplit entry.1 ++ pySplit (pyLower entry.2.1)
  (qWords.filter (fun w => pWords.contains w)).length

/-- Embedding of `search_policy_tool` (src/tools/policy_rag.py): iterate the
KB in order keeping the first entry of maximal strictly-positive overlap
(`overlap > best_score` with `best_score` starting at 0). -/
def search_policy_tool (_env : Env) (query : String) : ToolResult :=
  let qWords := (pySplit (pyLower query)).dedup
  let best := POLICY_KB.foldl
    (fun acc entry =>
      let ov := policyOverlap qWords entry
      match acc with
      | some (bs, _) => if bs < ov then some (ov, entry) else acc
      | none => if 0 < ov then some (ov, entry) else none)
    (none : Option (Nat × (String × String × String)))
  match best with
  | some (score, entry) =>
    { summary := entry.2.2,
      bullets := ["Question: " ++ entry.2.1, "", "For more information:",
        "Customer Care: 1800-XXX-XXXX", "Visit: demobank.com/help",
        "Chat with us on the app"],
      data := .policyMatch entry.2.1 (if 2 < score then "high" else "medium") }
  | none =>
    { summary := "I couldn\x27t find a specific policy answer. Let me connect you with customer support.",
      bullets := ["Call: 1800-XXX-XXXX (24x7)", "Email: support@demobank.com",
        "Help Center: demobank.com/help",
        "Visit nearest branch for detailed assistance"],
      data := .policyNoMatch }

/-! ### src/tools/forex.py -/

/-- The `FOREX_RATES` table (INR per unit of foreign currency). -/
def FOREX_RATES : List (String × ℚ) :=
  [("USD", mkRat 333 4), ("EUR", mkRat 181 2), ("GBP", mkRat 423 4),
   ("AED", mkRat 453 20), ("SGD", mkRat 312 5), ("AUD", mkRat 543 10),
   ("CAD", mkRat 306 5), ("CHF", mkRat 474 5)]

/-- Embedding of `get_forex_rates_tool` (src/tools/forex.py).
`data.last_updated` renders `datetime.now()`, modelled by `env.now`. -/
def get_forex_rates_tool (env : Env) (currency amount : Value) : ToolResult :=
  match currency.toS, amount.toQ with
  | some c0, some amt =>
    let c := pyUpper c0
    match FOREX_RATES.find? (fun p => p.1 == c) with
    | none =>
      { summary := "Currency " ++ c ++
          " not available. We support: USD, EUR, GBP, AED, SGD, AUD, CAD, CHF",
        bullets := ["Available currencies: USD, EUR, GBP, AED, SGD, AUD, CAD, CHF"],
        data := .errData "unsupported_currency" }
    | some p =>
      let rate := p.2
      let foreign_amount := amt / rate
      let card_rate := rate * (mkRat 102 100)
      let card_amount := amt / card_rate
      { summary := "For INR " ++ toString amt ++ ", you will get approximately " ++
          toString (pyRound2 foreign_amount) ++ " " ++ c ++ " at todays rate.",
        bullets := ["Todays Rate (Cash)", "Forex Card Rate", "Services Available",
          "Documents Required", "Visit any branch or order online"],
        data := .forexData c amt (pyRound2 foreign_amount) rate
          (pyRound2 card_rate) (pyRound2 card_amount) env.now }
  | _, _ =>
    { summary := "Error fetching forex rates: TypeError",
      bullets := ["Please contact our forex desk for current rates."],
      data := .errData "TypeError" }

/-! ### src/orchestrator.py — extract_slots_from_context

The function runs five Python regexes over the context text.  Each is
modelled by a left-to-right scanner with the leftmost-match semantics of
`re.search`/`re.findall`; `prev` always holds the character just before the
scan position so word boundaries (`\b`) can be decided. -/

/-- Leftmost match of `\b(\d{5,})\b`: the first maximal digit run of length
at least 5 delimited by non-word characters or the string ends. -/
def scanBigNum (prev : Option Char) : List Char → Option Nat
  | [] => none
  | c :: rest =>
    if c.isDigit && !prevIsWord prev then
      let run := c :: rest.takeWhile Char.isDigit
      let after := rest.dropWhile Char.isDigit
      if 5 ≤ run.length && headNotWord after then some (digitsVal run)
      else scanBigNum (some c) rest
    else scanBigNum (some c) rest

/-- Try each lowercase word, in alternation order, at the current position:
case-insensitive character match followed by a word boundary. -/
def tryWordsHere (ws : List String) (l : List Char) : Option String :=
  match ws with
  | [] => none
  | w :: rest =>
    match headMatchesCI w.data l with
    | some rem => if headNotWord rem then some w else tryWordsHere rest l
    | none => tryWordsHere rest l

/-- Leftmost boundary-delimited case-insensitive match of one of the given
words — the search of regex `\b(w1|w2|...)\b`.  For the loan-type regex the
optional `(?:\s+loan)?` tail is dropped: when it matches, its first
character is whitespace, so the boundary after group 1 holds anyway, and it
never changes group 1 or whether a match exists. -/
def scanWordAlt (ws : List String) (prev : Option Char) : List Char → Option String
  | [] => none
  | c :: rest =>
    if !prevIsWord prev then
      match tryWordsHere ws (c :: rest) with
      | some w => some w
      | none => scanWordAlt ws (some c) rest
    else scanWordAlt ws (some c) rest

/-- Try each keyword (no boundary), in alternation order, at the current
position, returning the remainder after the match. -/
def tryKeysHere (ws : List String) (l : List Char) : Option (List Char) :=
  match ws with
  | [] => none
  | w :: rest =>
    match headMatchesCI w.data l with
    | some rem => some rem
    | none => tryKeysHere rest l

/-- Lazy `.*?(\d...)` step: the first digit position reachable without
crossing a newline (regex `.` does not match `\n`). -/
def findDigitSameLine : List Char → Option (List Char)
  | [] => none
  | c :: rest =>
    if c.isDigit then some (c :: rest)
    else if c == '\n' then none
    else findDigitSameLine rest

/-- The unit group of the tenure regex. -/
inductive TUnit where
  | year | month | noUnit
  deriving Repr, DecidableEq

/-- Evaluate `\s*(months?|years?)?` after the digit run: skip whitespace
greedily, then classify the optional unit word by its stem. -/
def unitAfter (l : List Char) : TUnit :=
  let ws := l.dropWhile Char.isWhitespace
  if (headMatchesCI "month".data ws).isSome then .month
  else if (headMatchesCI "year".data ws).isSome then .year
  else .noUnit

/-- The keyword alternation of the first tenure regex,
`tenure|duration|period|months?|years?` (longer optional-s forms first, as
the greedy `s?` tries them first). -/
def tenureKeys1 : List String :=
  ["tenure", "duration", "period", "months", "month", "years", "year"]

/-- The keyword alternation of the fallback tenure regex,
`how long|tenure`. -/
def tenureKeys2 : List String := ["how long", "tenure"]

/-- Leftmost match of
`(?:tenure|duration|period|months?|years?).*?(\d+)\s*(months?|years?)?`:
at each position where a keyword matches, the first digit run on the same
line yields the number, with the optional trailing unit. -/
def scanTenureP1 : List Char → Option (Nat × TUnit)
  | [] => none
  | c :: rest =>
    match tryKeysHere tenureKeys1 (c :: rest) with
    | some rem =>
      match findDigitSameLine rem with
      | some ds =>
        some (digitsVal (ds.takeWhile Char.isDigit),
          unitAfter (ds.dropWhile Char.isDigit))
      | none => scanTenureP1 rest
    | none => scanTenureP1 rest

/-- Leftmost match of the fallback `(?:how long|tenure).*?(\d+)`. -/
def scanTenureP2 : List Char → Option Nat
  | [] => none
  | c :: rest =>
    match tryKeysHere tenureKeys2 (c :: rest) with
    | some rem =>
      match findDigitSameLine rem with
      | some ds => some (digitsVal (ds.takeWhile Char.isDigit))
      | none => scanTenureP2 rest
    | none => scanTenureP2 rest

/-- Lazy `.*?(\d{5,})` step (no boundaries): the first position on the same
line from which at least five digits run; the greedy group takes the whole
run. -/
def findBigNumSameLine : List Char → Option Nat
  | [] => none
  | c :: rest =>
    if c == '\n' then none
    else if c.isDigit && 4 ≤ (rest.takeWhile Char.isDigit).length then
      some (digitsVal (c :: rest.takeWhile Char.isDigit))
    else findBigNumSameLine rest

/-- Leftmost match of `income.*?(\d{5,})` (case-insensitive). -/
def scanIncome : List Char → Option Nat
  | [] => none
  | c :: rest =>
    match headMatchesCI "income".data (c :: rest) with
    | some rem =>
      match findBigNumSameLine rem with
      | some n => some n
      | none => scanIncome rest
    | none => scanIncome rest

/-- The loan-type words of the regex
`\b(personal|home|car|education)(?:\s+loan)?\b`. -/
def loanTypeWords : List String := ["personal", "home", "car", "education"]

/-- The card-type words of the regex `\b(travel|cashback|premium|rewards?)\b`
("rewards" before "reward": the greedy `s?` tries the longer form first). -/
def cardTypeWords : List String :=
  ["travel", "cashback", "premium", "rewards", "reward"]

/-- The tenure branch of `extract_slots_from_context`: a "year" unit
multiplies by 12; a "month" unit, or a bare number in `[2, 360]`, is months
directly; the fallback regex has no unit group, so only the range test
applies to it. -/
def tenureFromContext (cs : List Char) : Option Nat :=
  match scanTenureP1 cs with
  | some (n, u) =>
    if u = .year then some (n * 12)
    else if u = .month ∨ (2 ≤ n ∧ n ≤ 360) then some n
    else none
  | none =>
    match scanTenureP2 cs with
    | some n => if 2 ≤ n ∧ n ≤ 360 then some n else none
    | none => none

/-- Embedding of `extract_slots_from_context` (src/orchestrator.py lines
391-434): pattern-based recovery of previously filled slots from the
prior-turn context blob, built in the code's insertion order. -/
def extract_slots_from_context (context : String) : Dict :=
  let cs := context.data
  let d : Dict := []
  let d := match scanBigNum none cs with
    | some n => dset d "amount" (.nat n)
    | none => d
  let d := match scanWordAlt loanTypeWords none cs with
    | some w => dset d "loan_type" (.str w)
    | none => d
  let d := match tenureFromContext cs with
    | some n => dset d "tenure" (.nat n)
    | none => d
  let d := match scanWordAlt cardTypeWords none cs with
    | some w => dset d "card_type" (.str w)
    | none => d
  let d := match scanIncome cs with
    | some n => dset d "income" (.nat n)
    | none => d
  d

/-! ### src/orchestrator.py — the turn pipeline

The RedisVL semantic router and the LLM slot extractor are external
collaborators; the spec treats them as an opaque classifier and an opaque
extractor.  They enter the model as an `Oracle`: the classification the
router would return for the turn's text, and the extractor's output mapping
(`none` for an extraction failure, which the code catches). -/

/-- The part of a route's metadata the orchestrator consumes:
`metadata.get("required_slots", [])` and `metadata.get("handler")`.  The
empty metadata dict of an unknown result has no required slots and no
handler. -/
structure IntentMeta where
  required_slots : List String
  handler : Option String
  deriving Repr, DecidableEq

/-- The router result consumed by the orchestrator: intent, confidence,
similarity score, optional source marker ("context" for reused intents) and
metadata. -/
structure RouterResult where
  intent : String
  confidence : String
  score : ℚ
  source : Option String
  metadata : IntentMeta
  deriving Repr, DecidableEq

/-- The proposal envelope returned to the caller. -/
structure Proposal where
  bullets : List String
  data : ToolData
  deriving Repr, DecidableEq

/-- The `ConversationState` TypedDict (session/user ids omitted: no decision
reads them). -/
structure ConvState where
  text : String
  intent : Option String
  confidence : Option String
  router_result : Option RouterResult
  slots : Dict
  pending_slots : List String
  reply : String
  proposal : Option Proposal
  tool_result : Option ToolResult
  history : List String
  deriving Repr, DecidableEq

/-- The external collaborators' behaviour for one turn. -/
structure Oracle where
  classify : RouterResult
  extracted : Option (List (String × Option Value))
  deriving Repr

/-- The short-answer test of `route_intent_node`:
`len(text.strip().split()) <= 3 or text.strip().isdigit()`. -/
def isShortAnswer (text : String) : Bool :=
  (pySplit (pyStrip text)).length ≤ 3 || pyIsDigit (pyStrip text)

/-- The context-reuse keyword chain of `route_intent_node` (lines 75-116),
in the code's elif order, each with its hardcoded metadata. -/
def contextIntent (context : String) : Option (String × IntentMeta) :=
  if containsSub (pyLower context) "loan" || containsSub context "Intent: loan" then
    some ("loan", ⟨["loan_type", "amount", "tenure"], some "loans_tool"⟩)
  else if containsSub (pyLower context) "credit" ||
      containsSub context "Intent: credit_card" then
    some ("credit_card", ⟨["income", "card_type"], some "cards_tool"⟩)
  else if containsSub (pyLower context) "savings" ||
      containsSub (pyLower context) "fd" ||
      containsSub context "Intent: savings_fd" then
    some ("savings_fd", ⟨["amount", "tenure"], some "savings_tool"⟩)
  else if containsSub (pyLower context) "forex" ||
      containsSub (pyLower context) "currency" ||
      containsSub context "Intent: forex_travel" then
    some ("forex_travel", ⟨["currency", "amount"], some "forex_tool"⟩)
  else if containsSub (pyLower context) "policy" ||
      containsSub (pyLower context) "faq" ||
      containsSub context "Intent: policy_faq" then
    some ("policy_faq", ⟨[], some "policy_rag_tool"⟩)
  else if containsSub (pyLower context) "fraud" ||
      containsSub (pyLower context) "dispute" ||
      containsSub context "Intent: fraud_dispute" then
    some ("fraud_dispute", ⟨["transaction_id", "description"], some "fraud_tool"⟩)
  else none

/-- The branch test of `route_intent_node`: reuse only when history is
non-empty, the message is short, and a context keyword matches. -/
def reuseFromContext (st : ConvState) : Option (String × IntentMeta) :=
  match st.history.head? with
  | some context => if isShortAnswer st.text then contextIntent context else none
  | none => none

/-- Embedding of `route_intent_node`: reuse an intent from context when the
message is short and a keyword matches, otherwise take the classifier's
result and initialize the pending slots from its metadata (empty for
unknown). -/
def route_intent_node (o : Oracle) (st : ConvState) : ConvState :=
  match reuseFromContext st with
  | some (intent, meta) =>
    { st with
      intent := some intent,
      confidence := some "high",
      router_result := some ⟨intent, "high", mkRat 19 20, some "context", meta⟩,
      pending_slots := meta.required_slots }
  | none =>
    let r := o.classify
    { st with
      intent := some r.intent,
      confidence := some r.confidence,
      router_result := some r,
      pending_slots :=
        if r.intent ≠ "unknown" then r.metadata.required_slots else [] }

/-- One extracted item applied to the state: a non-null value is stored into
the slots, and its name removed from the pending list if present. -/
def applySlotItem (st : ConvState) (kv : String × Option Value) : ConvState :=
  match kv.2 with
  | none => st
  | some v =>
    { st with
      slots := dset st.slots kv.1 v,
      pending_slots :=
        if st.pending_slots.contains kv.1 then st.pending_slots.erase kv.1
        else st.pending_slots }

/-- Embedding of `parse_slots_node`: no-op when no slots are pending;
otherwise fold the extractor's output over the state.  An extraction
failure (`oracle.extracted = none`) is caught and leaves the state as it
was. -/
def parse_slots_node (o : Oracle) (st : ConvState) : ConvState :=
  if st.pending_slots.isEmpty then st
  else
    match o.extracted with
    | none => st
    | some items => items.foldl applySlotItem st

/-- The fixed clarification reply for unknown intents. -/
def unknownReply : String :=
  "I\x27m not sure I understand. Could you please rephrase? I can help with loans, credit cards, FD investments, forex, policies, and fraud reports."

/-- The canned slot-to-question table of `decide_next_node`. -/
def slot_questions : List (String × String) :=
  [("loan_amount", "What loan amount are you looking for?"),
   ("loan_type", "What type of loan do you need? (personal/home/car/education)"),
   ("interest_rate", "What interest rate were you quoted? (if you know)"),
   ("income", "What is your annual income?"),
   ("card_type", "What type of benefits are you interested in? (travel/cashback/premium)"),
   ("amount", "What amount are you planning to invest/need?"),
   ("tenure", "For how long? (in months)"),
   ("currency", "Which currency do you need? (USD/EUR/GBP/etc.)"),
   ("transaction_id", "What is the transaction ID? (or say \x27immediate\x27 to block card now)"),
   ("description", "Please describe the issue in detail.")]

/-- The question asked for a pending slot, with the generic fallback. -/
def slotQuestion (slot : String) : String :=
  ((slot_questions.find? (fun p => p.1 == slot)).map Prod.snd).getD
    ("Could you provide: " ++ slot ++ "?")

/-- Embedding of `decide_next_node`: unknown intents get the fixed
clarification reply (returning early, before the pending list is filtered);
otherwise already-filled slots are dropped from the pending list and, if any
remain, the first one's question becomes the reply. -/
def decide_next_node (st : ConvState) : ConvState :=
  if st.intent = some "unknown" then { st with reply := unknownReply }
  else
    let filled := dkeys st.slots
    let pending := st.pending_slots.filter (fun s => !filled.contains s)
    match pending with
    | next :: _ => { st with pending_slots := pending, reply := slotQuestion next }
    | [] => { st with pending_slots := pending }

/-- The conditional edge targets out of `decide_next`. -/
inductive NextNode where
  | stop
  | toSummarize
  | toCallTool
  deriving Repr, DecidableEq

/-- Embedding of `should_continue`: pending slots end the turn; a tool
result goes to summarize; otherwise a truthy (non-empty) slots dict together
with a router result goes to the tool call; otherwise the turn ends. -/
def should_continue (st : ConvState) : NextNode :=
  if !st.pending_slots.isEmpty then .stop
  else if st.tool_result.isSome then .toSummarize
  else if !st.slots.isEmpty && st.router_result.isSome then .toCallTool
  else .stop

/-- The `TOOL_MAP` handler names. -/
def TOOL_NAMES : List String :=
  ["loans_tool", "cards_tool", "savings_tool", "policy_rag_tool",
   "forex_tool", "fraud_tool"]

/-- The reply for a missing or unregistered handler. -/
def supportReply : String :=
  "I found your intent but couldn\x27t process it. Please contact support."

/-- The loans parameter mapping of `call_tool_node` (lines 272-277):
`loan_amount`, `interest_rate`, `tenure_months` from the collected slots
with defaults 500000, 10.5, 60. -/
def loanToolArgs (slots : Dict) : Value × Value × Value :=
  (dgetD slots "amount" (.nat 500000),
   dgetD slots "interest_rate" (.num (mkRat 21 2)),
   dgetD slots "tenure" (.nat 60))

/-- The cards parameter mapping (lines 278-282). -/
def cardsToolArgs (slots : Dict) : Value × Value :=
  (dgetD slots "income" (.nat 500000), dgetD slots "card_type" (.str "general"))

/-- The savings parameter mapping (lines 283-287). -/
def savingsToolArgs (slots : Dict) : Value × Value :=
  (dgetD slots "amount" (.nat 100000), dgetD slots "tenure" (.nat 12))

/-- The forex parameter mapping (lines 288-292): `currency` default "USD",
`amount` default 50000. -/
def forexToolArgs (slots : Dict) : Value × Value :=
  (dgetD slots "currency" (.str "USD"), dgetD slots "amount" (.nat 50000))

/-- The fraud parameter mapping (lines 293-297): `transaction_id` default
"immediate"; `description` is always the turn's raw text. -/
def fraudToolArgs (slots : Dict) (text : String) : Value × String :=
  (dgetD slots "transaction_id" (.str "immediate"), text)

/-- Embedding of `call_tool_node`: a missing, empty or unregistered handler
name gets the support reply; otherwise the handler's parameter mapping is
applied and the tool invoked, its result stored in the state.  The node is
only ever entered with a router result present (`should_continue` requires
it); the `none` branch returns the state unchanged. -/
def call_tool_node (env : Env) (st : ConvState) : ConvState :=
  match st.router_result with
  | none => st
  | some r =>
    match r.metadata.handler with
    | none => { st with reply := supportReply }
    | some h =>
      if h = "" ∨ ¬ TOOL_NAMES.contains h then { st with reply := supportReply }
      else if h = "loans_tool" then
        let a := loanToolArgs st.slots
        { st with tool_result := some (calculate_emi_tool env a.1 a.2.1 a.2.2) }
      else if h = "cards_tool" then
        let a := cardsToolArgs st.slots
        { st with tool_result := some (recommend_card_tool env a.1 a.2) }
      else if h = "savings_tool" then
        let a := savingsToolArgs st.slots
        { st with tool_result := some (suggest_fd_ladder_tool env a.1 a.2) }
      else if h = "forex_tool" then
        let a := forexToolArgs st.slots
        { st with tool_result := some (get_forex_rates_tool env a.1 a.2) }
      else if h = "fraud_tool" then
        let a := fraudToolArgs st.slots st.text
        { st with tool_result := some (handle_fraud_dispute_tool env a.1 a.2) }
      else
        { st with tool_result := some (search_policy_tool env st.text) }

/-- Embedding of `summarize_node`: copy the tool summary into the reply and
wrap bullets and data into the proposal. -/
def summarize_node (st : ConvState) : ConvState :=
  match st.tool_result with
  | none => st
  | some r => { st with reply := r.summary, proposal := some ⟨r.bullets, r.data⟩ }

/-- The compiled graph for one turn: the linear pipeline with the one
conditional fork after `decide_next` (a `call_tool` step always continues
into `summarize`). -/
def runGraph (env : Env) (o : Oracle) (st : ConvState) : ConvState :=
  let st1 := route_intent_node o st
  let st2 := parse_slots_node o st1
  let st3 := decide_next_node st2
  match should_continue st3 with
  | .stop => st3
  | .toSummarize => summarize_node st3
  | .toCallTool => summarize_node (call_tool_node env st3)

/-- The router sub-object of the turn response. -/
structure RouterBrief where
  intent : Option String
  confidence : Option String
  score : Option ℚ
  deriving Repr, DecidableEq

/-- The response dict of `handle_turn`. -/
structure TurnResponse where
  reply : String
  pending : List String
  router : RouterBrief
  proposal : Option Proposal
  deriving Repr, DecidableEq

/-- The initial `ConversationState` of a turn: slots recovered from the
context (when present), which also becomes the single-entry history. -/
def initState (text : String) (context : Option String) : ConvState :=
  { text := text,
    intent := none,
    confidence := none,
    router_result := none,
    slots := match context with
      | some c => extract_slots_from_context c
      | none => [],
    pending_slots := [],
    reply := "",
    proposal := none,
    tool_result := none,
    history := match context with
      | some c => [c]
      | none => [] }

/-- The final conversation state of one turn. -/
def handleTurnState (env : Env) (o : Oracle) (text : String)
    (context : Option String) : ConvState :=
  runGraph env o (initState text context)

/-- Embedding of `handle_turn` (src/orchestrator.py lines 437-489): run the
graph on the fresh state and format the response. -/
def handle_turn (env : Env) (o : Oracle) (text : String)
    (context : Option String) : TurnResponse :=
  let fs := handleTurnState env o text context
  { reply := fs.reply,
    pending := fs.pending_slots,
    router := ⟨fs.intent, fs.confidence, fs.router_result.map RouterResult.score⟩,
    proposal := fs.proposal }

/-! ### Dict lemmas -/

theorem dget_nil (k : String) : dget [] k = none := rfl

theorem dget_cons (p : String × Value) (d : Dict) (k : String) :
    dget (p :: d) k = if p.1 = k then some p.2 else dget d k := rfl

theorem dget_append_single (d : Dict) (k k' : String) (v : Value) :
    dget (d ++ [(k, v)]) k' =
      if dget d k' = none then (if k = k' then some v else none) else dget d k' := by
  induction d with
  | nil => simp [dget_cons, dget_nil]
  | cons p d ih =>
      by_cases h : p.1 = k'
      · simp [dget_cons, h]
      · simp only [List.cons_append, dget_cons, h, if_false]
        rw [ih]

theorem dget_map_replace (d : Dict) (k k' : String) (v : Value) :
    dget (d.map (fun p => if p.1 = k then (k, v) else p)) k' =
      if k = k' then (if dget d k = none then none else some v)
      else dget d k' := by
  induction d with
  | nil => simp [dget_nil]
  | cons p d ih =>
      by_cases hpk : p.1 = k
      · by_cases hkk : k = k'
        · subst hkk; simp [dget_cons, hpk, ih]
        · simp [dget_cons, hpk, hkk, ih, fun h : k' = k => hkk h.symm]
      · by_cases hpk' : p.1 = k'
        · have hkk : ¬ k = k' := fun h => hpk (h ▸ hpk')
          have hkk2 : ¬ k' = k := fun h => hkk h.symm
          simp [dget_cons, hpk, hpk', hkk, hkk2, ih]
        · by_cases hkk : k = k'
          · subst hkk; simp [dget_cons, hpk, hpk', ih]
          · simp [dget_cons, hpk, hpk', hkk, ih]

theorem dget_dset_same (d : Dict) (k : String) (v : Value) :
    dget (dset d k v) k = some v := by
  unfold dset
  split
  · rename_i hp
    rw [dget_map_replace]
    rcases h : dget d k with _ | w
    · rw [h] at hp; simp at hp
    · simp [h]
  · rename_i hp
    rw [dget_append_single]
    rcases h : dget d k with _ | w
    · simp
    · rw [h] at hp; simp at hp

theorem dget_dset_other (d : Dict) (k k' : String) (v : Value) (h : k' ≠ k) :
    dget (dset d k v) k' = dget d k' := by
  unfold dset
  split
  · rw [dget_map_replace, if_neg (fun hh : k = k' => h hh.symm)]
  · rw [dget_append_single]
    split
    · rw [if_neg (fun hh : k = k' => h hh.symm)]
      rename_i hn
      exact hn.symm
    · rfl

theorem dget_none_of_not_contains (d : Dict) (k : String)
    (h : (dkeys d).contains k = false) : dget d k = none := by
  induction d with
  | nil => rfl
  | cons p d ih =>
      simp only [dkeys, List.map_cons, List.contains_cons, Bool.or_eq_false_iff,
        beq_eq_false_iff_ne, ne_eq] at h
      rw [dget_cons, if_neg (fun hh => h.1 hh.symm)]
      exact ih (by simpa [dkeys] using h.2)

/-! ### Classifier results used by concrete turns -/

/-- A classifier result routing to `policy_faq` (no required slots, handler
`policy_rag_tool`), as `route_text` returns for a policy question. -/
def policyClassify : RouterResult :=
  ⟨"policy_faq", "high", mkRat 9 10, none, ⟨[], some "policy_rag_tool"⟩⟩

/-- The classifier result for no candidate routes: intent unknown,
confidence none, score 0, empty metadata. -/
def unknownClassify : RouterResult :=
  ⟨"unknown", "none", 0, none, ⟨[], none⟩⟩

/-- A classifier result routing to `loan` with its required slots and
handler. -/
def loanClassify : RouterResult :=
  ⟨"loan", "high", mkRat 9 10, none,
    ⟨["loan_type", "amount", "tenure"], some "loans_tool"⟩⟩

/-- A classifier result routing to `credit_card` with its required slots and
handler. -/
def creditCardClassify : RouterResult :=
  ⟨"credit_card", "high", mkRat 9 10, none,
    ⟨["income", "card_type"], some "cards_tool"⟩⟩

/-! ### C1 -/

/-- C1: the claim states that a first-turn message classified to an intent
with no required slots (policy_faq) reaches tool invocation in that same
turn, producing a tool result and proposal.  The code fails this: on a first
turn there is no context, so the collected-slots dict is empty, and
`should_continue` sends an empty-slots state to `END` rather than
`call_tool`.  The turn ends with no tool result, no proposal, and an empty
reply — for every ambient environment and every extractor behaviour. -/
theorem C1_policy_faq_first_turn_skips_tool (env : Env)
    (e : Option (List (String × Option Value))) :
    (handleTurnState env ⟨policyClassify, e⟩ "What are your branch timings?"
        none).tool_result = none ∧
    (handle_turn env ⟨policyClassify, e⟩ "What are your branch timings?"
        none).proposal = none ∧
    (handle_turn env ⟨policyClassify, e⟩ "What are your branch timings?"
        none).reply = "" ∧
    (handle_turn env ⟨policyClassify, e⟩ "What are your branch timings?"
        none).router.intent = some "policy_faq" :=
  ⟨rfl, rfl, rfl, rfl⟩

/-! ### C4 -/

/-- C4: the claim states that an unknown-intent turn always ends with the
fixed clarification reply, empty pending list, no tool call and no proposal,
whatever slots were recovered from the prior context.  The code fails the
reply part: with a non-empty recovered slot dict (here `amount = 54321` from
the context), `should_continue` routes the unknown-intent state to
`call_tool`, whose missing-handler branch overwrites the clarification
reply with the "I found your intent" support message — contradicting the
resolved unknown intent.  Pending stays empty, and no tool result or
proposal is produced. -/
theorem C4_unknown_intent_with_recovered_slots_support_reply (env : Env)
    (e : Option (List (String × Option Value))) :
    (handle_turn env ⟨unknownClassify, e⟩ "what is the weather there"
        (some "my account code is 54321")).reply = supportReply ∧
    supportReply ≠ unknownReply ∧
    (handle_turn env ⟨unknownClassify, e⟩ "what is the weather there"
        (some "my account code is 54321")).pending = [] ∧
    (handleTurnState env ⟨unknownClassify, e⟩ "what is the weather there"
        (some "my account code is 54321")).tool_result = none ∧
    (handle_turn env ⟨unknownClassify, e⟩ "what is the weather there"
        (some "my account code is 54321")).proposal = none ∧
    (handleTurnState env ⟨unknownClassify, e⟩ "what is the weather there"
        (some "my account code is 54321")).slots = [("amount", .nat 54321)] :=
  ⟨rfl, by decide, rfl, rfl, rfl, rfl⟩

/-! ### C2 -/

/-- C2 counterexample: the claim states every registered tool returns
structurally identical data when invoked twice with identical parameters.
The fraud tool refutes it: two invocations with the same `transaction_id`
and `description` but made at different moments (different ambient random
draw and clock — the two `Env`s) return different data: the `case_id` comes
from `random.randint` and `created_at` from `datetime.now()`. -/
theorem C2_counterexample_fraud_tool_not_deterministic :
    (handle_fraud_dispute_tool ⟨0, "2025-01-01T10:00:00"⟩ (.str "TXN42")
        "double charge at store").data ≠
    (handle_fraud_dispute_tool ⟨1, "2025-01-01T10:05:00"⟩ (.str "TXN42")
        "double charge at store").data := by
  decide

/-- C2 (amended): every registered tool except the fraud and forex handlers
is a pure function of its parameters — its whole result is independent of
the ambient random generator and clock; in particular two
`calculate_emi` invocations with identical parameters (such as
`(500000, 10.5, 60)`) always yield the identical emi/total_payment/
total_interest data triple.  The fraud tool (random case id, creation time)
and the forex tool (last_updated time) do read the ambient state. -/
theorem C2_amended_pure_tools_ignore_ambient_state :
    (∀ (env env' : Env) (a b c : Value),
      calculate_emi_tool env a b c = calculate_emi_tool env' a b c) ∧
    (∀ (env env' : Env) (a b : Value),
      recommend_card_tool env a b = recommend_card_tool env' a b) ∧
    (∀ (env env' : Env) (a b : Value),
      suggest_fd_ladder_tool env a b = suggest_fd_ladder_tool env' a b) ∧
    (∀ (env env' : Env) (q : String),
      search_policy_tool env q = search_policy_tool env' q) :=
  ⟨fun _ _ _ _ _ => rfl, fun _ _ _ _ => rfl, fun _ _ _ _ => rfl,
   fun _ _ _ => rfl⟩

/-! ### C3 -/

/-- C3 counterexample: the claim states that
`handle_fraud_dispute(transaction_id="immediate", description="someone stole
my card")` yields priority HIGH and status CARD_BLOCKED via the "stolen"
keyword.  It does not: "stolen" is not a substring of "someone stole my
card" (the description says "stole"), no urgency keyword matches, and the
data comes out priority NORMAL, status UNDER_REVIEW. -/
theorem C3_counterexample_stole_is_not_stolen :
    containsSub (pyLower "someone stole my card") "stolen" = false ∧
    (handle_fraud_dispute_tool ⟨0, "t"⟩ (.str "immediate")
        "someone stole my card").data.priorityOf = some "NORMAL" ∧
    (handle_fraud_dispute_tool ⟨0, "t"⟩ (.str "immediate")
        "someone stole my card").data.statusOf = some "UNDER_REVIEW" ∧
    (some "NORMAL" : Option String) ≠ some "HIGH" := by
  refine ⟨by decide, by decide, by decide, by decide⟩

/-- C3 (amended): a description that does contain an urgency keyword such as
"stolen" (e.g. "my card was stolen") yields priority HIGH and status
CARD_BLOCKED, for every transaction id and ambient state; the claimed input
"someone stole my card" contains no urgency keyword and yields priority
NORMAL, status UNDER_REVIEW. -/
theorem C3_amended_fraud_urgency (env : Env) (tid : Value) (desc : String)
    (h : containsSub (pyLower desc) "stolen" = true) :
    (handle_fraud_dispute_tool env tid desc).data.priorityOf = some "HIGH" ∧
    (handle_fraud_dispute_tool env tid desc).data.statusOf = some "CARD_BLOCKED" ∧
    (handle_fraud_dispute_tool env tid "someone stole my card").data.priorityOf =
      some "NORMAL" ∧
    (handle_fraud_dispute_tool env tid "someone stole my card").data.statusOf =
      some "UNDER_REVIEW" := by
  have hu : urgentKeywords.any (fun kw => containsSub (pyLower desc) kw) = true := by
    simp [urgentKeywords, h]
  have hn : urgentKeywords.any
      (fun kw => containsSub (pyLower "someone stole my card") kw) = false := by
    decide
  refine ⟨?_, ?_, ?_, ?_⟩ <;>
    simp [handle_fraud_dispute_tool, hu, hn, ToolData.priorityOf, ToolData.statusOf]

/-- C3 witness: the amended theorem applied at the concrete description
"my card was stolen". -/
theorem C3_amended_fraud_urgency_witness :
    containsSub (pyLower "my card was stolen") "stolen" = true ∧
    (handle_fraud_dispute_tool ⟨3, "t"⟩ (.str "immediate")
        "my card was stolen").data.priorityOf = some "HIGH" ∧
    (handle_fraud_dispute_tool ⟨3, "t"⟩ (.str "immediate")
        "my card was stolen").data.statusOf = some "CARD_BLOCKED" :=
  ⟨by decide,
   (C3_amended_fraud_urgency ⟨3, "t"⟩ (.str "immediate") "my card was stolen"
     (by decide)).1,
   (C3_amended_fraud_urgency ⟨3, "t"⟩ (.str "immediate") "my card was stolen"
     (by decide)).2.1⟩

/-! ### C6 -/

/-- C6: on a turn with prior context whose message is short (at most 3
whitespace tokens, or purely numeric) and whose context matches an intent
keyword, `route_intent_node` reuses the intent found by the fixed-priority
keyword chain `contextIntent` with confidence high, score 0.95, source
context, pending slots from the hardcoded metadata — and the classifier
plays no role: any two classifier behaviours give the same state.  The
"loan" keyword has first priority: a context containing it (case-folded)
always resolves to the loan intent. -/
theorem C6_short_answer_context_reuse (o o' : Oracle) (ctx text : String)
    (i : String) (m : IntentMeta)
    (hshort : isShortAnswer text = true)
    (hfind : contextIntent ctx = some (i, m)) :
    (route_intent_node o (initState text (some ctx))).router_result =
      some ⟨i, "high", mkRat 19 20, some "context", m⟩ ∧
    (route_intent_node o (initState text (some ctx))).intent = some i ∧
    (route_intent_node o (initState text (some ctx))).confidence = some "high" ∧
    (route_intent_node o (initState text (some ctx))).pending_slots =
      m.required_slots ∧
    route_intent_node o (initState text (some ctx)) =
      route_intent_node o' (initState text (some ctx)) ∧
    (containsSub (pyLower ctx) "loan" = true →
      contextIntent ctx =
        some ("loan", ⟨["loan_type", "amount", "tenure"], some "loans_tool"⟩)) := by
  refine ⟨?_, ?_, ?_, ?_, ?_, ?_⟩
  · simp [route_intent_node, reuseFromContext, initState, hshort, hfind]
  · simp [route_intent_node, reuseFromContext, initState, hshort, hfind]
  · simp [route_intent_node, reuseFromContext, initState, hshort, hfind]
  · simp [route_intent_node, reuseFromContext, initState, hshort, hfind]
  · simp [route_intent_node, reuseFromContext, initState, hshort, hfind]
  · intro hl
    simp [contextIntent, hl]

/-- C6 witness: prior context mentioning "loan" plus the purely numeric
message "5" resolves to the loan intent with high confidence, score 0.95,
source context. -/
theorem C6_short_answer_context_reuse_witness :
    isShortAnswer "5" = true ∧
    contextIntent "What type of loan do you need?" =
      some ("loan", ⟨["loan_type", "amount", "tenure"], some "loans_tool"⟩) ∧
    (route_intent_node ⟨unknownClassify, none⟩
        (initState "5" (some "What type of loan do you need?"))).router_result =
      some ⟨"loan", "high", mkRat 19 20, some "context",
        ⟨["loan_type", "amount", "tenure"], some "loans_tool"⟩⟩ :=
  ⟨by decide, by decide,
   (C6_short_answer_context_reuse ⟨unknownClassify, none⟩ ⟨unknownClassify, none⟩
     "What type of loan do you need?" "5" "loan"
     ⟨["loan_type", "amount", "tenure"], some "loans_tool"⟩
     (by decide) (by decide)).1⟩

/-! ### C7 -/

/-- C7 counterexample: the claim states tool invocation uses a slot's
collected value when present, with the fraud description defaulting to the
raw message text.  The code never reads a collected `description` slot: even
when one is present, the description parameter is the raw turn text, and the
tool is invoked with it. -/
theorem C7_counterexample_description_slot_ignored :
    dget [("transaction_id", Value.str "TXN1"),
      ("description", Value.str "it was stolen last week")] "description" =
      some (.str "it was stolen last week") ∧
    (fraudToolArgs [("transaction_id", Value.str "TXN1"),
      ("description", Value.str "it was stolen last week")] "ok thanks").2 =
      "ok thanks" ∧
    "ok thanks" ≠ "it was stolen last week" := by
  refine ⟨by decide, by decide, by decide⟩

/-- C7 (amended): tool invocation maps collected slots onto each handler's
parameters with fixed defaults when absent — loans: amount 500000,
interest_rate 10.5, tenure 60; forex: currency "USD", amount 50000; fraud:
transaction_id "immediate" — while the fraud description parameter is always
the raw message text, ignoring any collected description slot.  The
`call_tool_node` branches invoke the handlers exactly on these mapped
parameters. -/
theorem C7_amended_slot_param_mapping (slots : Dict) (text : String) (v : Value) :
    (dget slots "amount" = some v → (loanToolArgs slots).1 = v) ∧
    (dget slots "amount" = none → (loanToolArgs slots).1 = .nat 500000) ∧
    (dget slots "interest_rate" = some v → (loanToolArgs slots).2.1 = v) ∧
    (dget slots "interest_rate" = none →
      (loanToolArgs slots).2.1 = .num (mkRat 21 2)) ∧
    (dget slots "tenure" = some v → (loanToolArgs slots).2.2 = v) ∧
    (dget slots "tenure" = none → (loanToolArgs slots).2.2 = .nat 60) ∧
    (dget slots "currency" = some v → (forexToolArgs slots).1 = v) ∧
    (dget slots "currency" = none → (forexToolArgs slots).1 = .str "USD") ∧
    (dget slots "amount" = some v → (forexToolArgs slots).2 = v) ∧
    (dget slots "amount" = none → (forexToolArgs slots).2 = .nat 50000) ∧
    (dget slots "transaction_id" = some v → (fraudToolArgs slots text).1 = v) ∧
    (dget slots "transaction_id" = none →
      (fraudToolArgs slots text).1 = .str "immediate") ∧
    ((fraudToolArgs slots text).2 = text) ∧
    (∀ (env : Env) (st : ConvState) (r : RouterResult),
      st.router_result = some r → r.metadata.handler = some "loans_tool" →
      (call_tool_node env st).tool_result =
        some (calculate_emi_tool env (loanToolArgs st.slots).1
          (loanToolArgs st.slots).2.1 (loanToolArgs st.slots).2.2)) ∧
    (∀ (env : Env) (st : ConvState) (r : RouterResult),
      st.router_result = some r → r.metadata.handler = some "forex_tool" →
      (call_tool_node env st).tool_result =
        some (get_forex_rates_tool env (forexToolArgs st.slots).1
          (forexToolArgs st.slots).2)) ∧
    (∀ (env : Env) (st : ConvState) (r : RouterResult),
      st.router_result = some r → r.metadata.handler = some "fraud_tool" →
      (call_tool_node env st).tool_result =
        some (handle_fraud_dispute_tool env (fraudToolArgs st.slots st.text).1
          (fraudToolArgs st.slots st.text).2)) := by
  refine ⟨fun h => by simp [loanToolArgs, dgetD, h],
    fun h => by simp [loanToolArgs, dgetD, h],
    fun h => by simp [loanToolArgs, dgetD, h],
    fun h => by simp [loanToolArgs, dgetD, h],
    fun h => by simp [loanToolArgs, dgetD, h],
    fun h => by simp [loanToolArgs, dgetD, h],
    fun h => by simp [forexToolArgs, dgetD, h],
    fun h => by simp [forexToolArgs, dgetD, h],
    fun h => by simp [forexToolArgs, dgetD, h],
    fun h => by simp [forexToolArgs, dgetD, h],
    fun h => by simp [fraudToolArgs, dgetD, h],
    fun h => by simp [fraudToolArgs, dgetD, h],
    rfl, ?_, ?_, ?_⟩
  · intro env st r hr hh
    simp [call_tool_node, hr, hh, TOOL_NAMES]
  · intro env st r hr hh
    simp [call_tool_node, hr, hh, TOOL_NAMES]
  · intro env st r hr hh
    simp [call_tool_node, hr, hh, TOOL_NAMES]

/-- C7 witness: the amended mapping evaluated on a concrete slot dict with a
collected amount and transaction id, absent currency, and a collected (but
ignored) description. -/
theorem C7_amended_slot_param_mapping_witness :
    (loanToolArgs [("amount", Value.nat 200000),
      ("transaction_id", Value.str "T9"),
      ("description", Value.str "d")]).1 = .nat 200000 ∧
    (forexToolArgs [("amount", Value.nat 200000),
      ("transaction_id", Value.str "T9"),
      ("description", Value.str "d")]).1 = .str "USD" ∧
    (fraudToolArgs [("amount", Value.nat 200000),
      ("transaction_id", Value.str "T9"),
      ("description", Value.str "d")] "hello").1 = .str "T9" ∧
    (fraudToolArgs [("amount", Value.nat 200000),
      ("transaction_id", Value.str "T9"),
      ("description", Value.str "d")] "hello").2 = "hello" :=
  ⟨(C7_amended_slot_param_mapping _ "hello" (.nat 200000)).1 (by decide),
   (C7_amended_slot_param_mapping _ "hello" (.nat 200000)).2.2.2.2.2.2.2.1
     (by decide),
   (C7_amended_slot_param_mapping _ "hello" (.str "T9")).2.2.2.2.2.2.2.2.2.2.1
     (by decide),
   (C7_amended_slot_param_mapping _ "hello" (.str "T9")).2.2.2.2.2.2.2.2.2.2.2.2.1⟩

/-! ### C8 -/

/-- C8: `extract_slots_from_context` recovers, for every context string:
amount — the first word-bounded number of 5+ digits (`scanBigNum`);
loan_type — the first boundary-delimited match of personal/home/car/education
(`scanWordAlt`); tenure — per the matched tenure number and unit, where a
trailing "year" unit multiplies by 12 and a trailing "month" unit or a bare
number in [2, 360] is taken as months directly (fallback pattern: bare
number rule only); card_type — the first match of
travel/cashback/premium/reward(s); income — the first 5+-digit number after
"income" (`scanIncome`). -/
theorem C8_context_slot_recovery (ctx : String) :
    (dget (extract_slots_from_context ctx) "amount" =
      (scanBigNum none ctx.data).map Value.nat) ∧
    (dget (extract_slots_from_context ctx) "loan_type" =
      (scanWordAlt loanTypeWords none ctx.data).map Value.str) ∧
    (dget (extract_slots_from_context ctx) "tenure" =
      (tenureFromContext ctx.data).map Value.nat) ∧
    (dget (extract_slots_from_context ctx) "card_type" =
      (scanWordAlt cardTypeWords none ctx.data).map Value.str) ∧
    (dget (extract_slots_from_context ctx) "income" =
      (scanIncome ctx.data).map Value.nat) ∧
    (∀ n u, scanTenureP1 ctx.data = some (n, u) →
      tenureFromContext ctx.data =
        if u = .year then some (n * 12)
        else if u = .month ∨ (2 ≤ n ∧ n ≤ 360) then some n
        else none) ∧
    (∀ n, scanTenureP1 ctx.data = none → scanTenureP2 ctx.data = some n →
      tenureFromContext ctx.data = if 2 ≤ n ∧ n ≤ 360 then some n else none) := by
  have key : (dget (extract_slots_from_context ctx) "amount" =
      (scanBigNum none ctx.data).map Value.nat) ∧
      (dget (extract_slots_from_context ctx) "loan_type" =
        (scanWordAlt loanTypeWords none ctx.data).map Value.str) ∧
      (dget (extract_slots_from_context ctx) "tenure" =
        (tenureFromContext ctx.data).map Value.nat) ∧
      (dget (extract_slots_from_context ctx) "card_type" =
        (scanWordAlt cardTypeWords none ctx.data).map Value.str) ∧
      (dget (extract_slots_from_context ctx) "income" =
        (scanIncome ctx.data).map Value.nat) := by
    rcases hA : scanBigNum none ctx.data with _ | n <;>
      rcases hL : scanWordAlt loanTypeWords none ctx.data with _ | w <;>
      rcases hT : tenureFromContext ctx.data with _ | t <;>
      rcases hC : scanWordAlt cardTypeWords none ctx.data with _ | cw <;>
      rcases hI : scanIncome ctx.data with _ | inc <;>
      refine ⟨?_, ?_, ?_, ?_, ?_⟩ <;>
      simp [extract_slots_from_context, hA, hL, hT, hC, hI, dget_dset_same,
        dget_dset_other, dget_nil]
  refine ⟨key.1, key.2.1, key.2.2.1, key.2.2.2.1, key.2.2.2.2, ?_, ?_⟩
  · intro n u h
    simp [tenureFromContext, h]
  · intro n h1 h2
    simp [tenureFromContext, h1, h2]

/-- C8 witness: the recovery rules evaluated on a concrete context carrying
a tenure in years, an income, a loan type and a card type. -/
theorem C8_context_slot_recovery_witness :
    scanTenureP1 ("personal loan, tenure of 5 years, income 900000, travel").data =
      some (5, TUnit.year) ∧
    tenureFromContext
      ("personal loan, tenure of 5 years, income 900000, travel").data = some 60 ∧
    dget (extract_slots_from_context
      "personal loan, tenure of 5 years, income 900000, travel") "tenure" =
      some (.nat 60) ∧
    dget (extract_slots_from_context
      "personal loan, tenure of 5 years, income 900000, travel") "income" =
      some (.nat 900000) ∧
    dget (extract_slots_from_context
      "personal loan, tenure of 5 years, income 900000, travel") "loan_type" =
      some (.str "personal") ∧
    dget (extract_slots_from_context
      "personal loan, tenure of 5 years, income 900000, travel") "card_type" =
      some (.str "travel") := by
  refine ⟨by decide, ?_, ?_, ?_, ?_, ?_⟩
  · rw [(C8_context_slot_recovery _).2.2.2.2.2.1 5 TUnit.year (by decide)]
    decide
  · rw [(C8_context_slot_recovery _).2.2.1]
    decide
  · rw [(C8_context_slot_recovery _).2.2.2.2.1]
    decide
  · rw [(C8_context_slot_recovery _).2.1]
    decide
  · rw [(C8_context_slot_recovery _).2.2.2.1]
    decide

/-! ### Fold lemmas for the parse stage -/

theorem applySlotItem_intent (st : ConvState) (kv : String × Option Value) :
    (applySlotItem st kv).intent = st.intent := by
  rcases kv with ⟨k1, _ | v1⟩ <;> rfl

theorem applyItems_intent (items : List (String × Option Value))
    (st : ConvState) : (items.foldl applySlotItem st).intent = st.intent := by
  induction items generalizing st with
  | nil => rfl
  | cons kv rest ih => rw [List.foldl_cons, ih, applySlotItem_intent]

theorem applyItems_keeps_unextracted (items : List (String × Option Value))
    (st : ConvState) (k : String) (h : ∀ v, (k, some v) ∉ items) :
    dget (items.foldl applySlotItem st).slots k = dget st.slots k ∧
    ((k ∈ (items.foldl applySlotItem st).pending_slots) ↔
      k ∈ st.pending_slots) := by
  induction items generalizing st with
  | nil => exact ⟨rfl, Iff.rfl⟩
  | cons kv rest ih =>
      have h' : ∀ v, (k, some v) ∉ rest :=
        fun v hv => h v (List.mem_cons_of_mem _ hv)
      rw [List.foldl_cons]
      rcases kv with ⟨k1, _ | v1⟩
      · exact ih st h'
      · have hne : k ≠ k1 := by
          rintro rfl
          exact h v1 (List.mem_cons_self _ _)
        have hstep := ih (applySlotItem st (k1, some v1)) h'
        refine ⟨?_, ?_⟩
        · rw [hstep.1]
          exact dget_dset_other st.slots k1 k v1 hne
        · rw [hstep.2]
          show (k ∈ if st.pending_slots.contains k1
            then st.pending_slots.erase k1 else st.pending_slots) ↔
            k ∈ st.pending_slots
          split
          · exact List.mem_erase_of_ne hne
          · exact Iff.rfl

theorem applyItems_pending_nodup (items : List (String × Option Value))
    (st : ConvState) (h : st.pending_slots.Nodup) :
    (items.foldl applySlotItem st).pending_slots.Nodup := by
  induction items generalizing st with
  | nil => exact h
  | cons kv rest ih =>
      rw [List.foldl_cons]
      refine ih _ ?_
      rcases kv with ⟨k1, _ | v1⟩
      · exact h
      · show (if st.pending_slots.contains k1
          then st.pending_slots.erase k1 else st.pending_slots).Nodup
        split
        · exact h.erase k1
        · exact h

theorem applyItems_stores (items : List (String × Option Value)) :
    ∀ (st : ConvState) (k : String) (v : Value),
      (items.map Prod.fst).Nodup → st.pending_slots.Nodup →
      (k, some v) ∈ items →
      dget (items.foldl applySlotItem st).slots k = some v ∧
      k ∉ (items.foldl applySlotItem st).pending_slots := by
  induction items with
  | nil =>
      intro st k v _ _ hmem
      cases hmem
  | cons kv rest ih =>
      intro st k v hnd hpn hmem
      rw [List.foldl_cons]
      rcases List.mem_cons.mp hmem with heq | htl
      · -- the head is the extracted entry for k
        have hk1 : kv.1 = k := by rw [← heq]
        have hkrest : ∀ v', (k, some v') ∉ rest := by
          intro v' hv'
          have hmap : k ∈ rest.map Prod.fst := List.mem_map_of_mem _ hv'
          rw [List.map_cons, hk1] at hnd
          exact (List.nodup_cons.mp hnd).1 hmap
        have hkeep :=
          applyItems_keeps_unextracted rest (applySlotItem st kv) k hkrest
        rcases kv with ⟨k1, _ | v1⟩
        · cases heq
        · cases heq
          refine ⟨?_, ?_⟩
          · rw [hkeep.1]
            exact dget_dset_same st.slots k v
          · rw [hkeep.2]
            show k ∉ if st.pending_slots.contains k
              then st.pending_slots.erase k else st.pending_slots
            split
            · intro hc
              exact ((hpn.mem_erase_iff).mp hc).1 rfl
            · rename_i hc
              intro hk
              exact hc (List.elem_iff.mpr hk)
      · -- the entry for k sits in the tail
        have hnd' : (rest.map Prod.fst).Nodup := by
          rw [List.map_cons] at hnd
          exact (List.nodup_cons.mp hnd).2
        have hpn' : (applySlotItem st kv).pending_slots.Nodup := by
          rcases kv with ⟨k1, _ | v1⟩
          · exact hpn
          · show (if st.pending_slots.contains k1
              then st.pending_slots.erase k1 else st.pending_slots).Nodup
            split
            · exact hpn.erase k1
            · exact hpn
        exact ih (applySlotItem st kv) k v hnd' hpn' htl

/-! ### C5 -/

/-- C5 counterexample: the claim states slot parsing never overwrites an
already-known collected value.  It does: on a turn whose context recovered
`amount = 88888` (merged in at turn start), a short answer reusing the loan
intent re-opens `amount` as pending, and an extractor output
`{amount: 999}` overwrites the previously collected value. -/
theorem C5_counterexample_extractor_overwrites_collected :
    dget (extract_slots_from_context "i want a loan of 88888") "amount" =
      some (.nat 88888) ∧
    dget (handleTurnState ⟨0, "t"⟩
        ⟨unknownClassify, some [("amount", some (.nat 999))]⟩ "999"
        (some "i want a loan of 88888")).slots "amount" = some (.nat 999) ∧
    Value.nat 999 ≠ Value.nat 88888 :=
  ⟨by decide, by decide, by decide⟩

/-- C5 (amended): when parsing runs (pending slots non-empty) on an
extractor output with unique field names: every field returned with a
non-null value is stored into collected slots — replacing any previously
collected value for that name — and removed from the pending list; every
slot name for which the extractor returns no non-null value keeps its
collected value and its pending status through the parse stage. -/
theorem C5_amended_parse_slot_update (o : Oracle) (st : ConvState)
    (items : List (String × Option Value))
    (he : o.extracted = some items)
    (hne : st.pending_slots.isEmpty = false)
    (hnd : (items.map Prod.fst).Nodup)
    (hpn : st.pending_slots.Nodup) :
    (∀ k v, (k, some v) ∈ items →
      dget (parse_slots_node o st).slots k = some v ∧
      k ∉ (parse_slots_node o st).pending_slots) ∧
    (∀ k, (∀ v, (k, some v) ∉ items) →
      dget (parse_slots_node o st).slots k = dget st.slots k ∧
      ((k ∈ (parse_slots_node o st).pending_slots) ↔ k ∈ st.pending_slots)) := by
  have hp : parse_slots_node o st = items.foldl applySlotItem st := by
    unfold parse_slots_node
    rw [hne, he]
    rfl
  rw [hp]
  exact ⟨fun k v hm => applyItems_stores items st k v hnd hpn hm,
    fun k hk => applyItems_keeps_unextracted items st k hk⟩

/-- C5 witness: the amended update rules evaluated on a concrete mid-turn
state (loan intent, `amount` collected as 88888 from context, all three
loan slots pending) and the extractor output `{amount: 999, tenure: null}`:
amount is stored (overwriting 88888) and leaves pending; tenure keeps its
absence and stays pending. -/
theorem C5_amended_parse_slot_update_witness :
    (dget (parse_slots_node
        ⟨loanClassify, some [("amount", some (.nat 999)), ("tenure", none)]⟩
        ⟨"999", some "loan", some "high", some loanClassify,
          [("amount", .nat 88888)], ["loan_type", "amount", "tenure"], "",
          none, none, ["ctx"]⟩).slots "amount" = some (.nat 999) ∧
      "amount" ∉ (parse_slots_node
        ⟨loanClassify, some [("amount", some (.nat 999)), ("tenure", none)]⟩
        ⟨"999", some "loan", some "high", some loanClassify,
          [("amount", .nat 88888)], ["loan_type", "amount", "tenure"], "",
          none, none, ["ctx"]⟩).pending_slots) ∧
    (dget (parse_slots_node
        ⟨loanClassify, some [("amount", some (.nat 999)), ("tenure", none)]⟩
        ⟨"999", some "loan", some "high", some loanClassify,
          [("amount", .nat 88888)], ["loan_type", "amount", "tenure"], "",
          none, none, ["ctx"]⟩).slots "tenure" =
      dget [("amount", Value.nat 88888)] "tenure" ∧
      (("tenure" ∈ (parse_slots_node
        ⟨loanClassify, some [("amount", some (.nat 999)), ("tenure", none)]⟩
        ⟨"999", some "loan", some "high", some loanClassify,
          [("amount", .nat 88888)], ["loan_type", "amount", "tenure"], "",
          none, none, ["ctx"]⟩).pending_slots) ↔
        "tenure" ∈ ["loan_type", "amount", "tenure"])) :=
  ⟨(C5_amended_parse_slot_update _ _ _ rfl (by decide) (by decide) (by decide)).1
      "amount" (.nat 999) (by decide),
   (C5_amended_parse_slot_update _ _ _ rfl (by decide) (by decide) (by decide)).2
      "tenure" (by intro v hv; simp at hv)⟩

/-! ### C10 -/

/-- C10: a non-null extractor value for a field outside the pending list is
still stored into collected slots (first conjunct); a collected
`interest_rate` is mapped onto the loans tool's parameter in place of its
10.5 default (second conjunct); and end to end, a loan turn whose extractor
output also carries `interest_rate` invokes the EMI tool with that value
(third conjunct). -/
theorem C10_extra_extracted_slots_reach_tool :
    (∀ (o : Oracle) (st : ConvState) (items : List (String × Option Value))
      (k : String) (v : Value),
      o.extracted = some items → st.pending_slots.isEmpty = false →
      (items.map Prod.fst).Nodup → st.pending_slots.Nodup →
      (k, some v) ∈ items → k ∉ st.pending_slots →
      dget (parse_slots_node o st).slots k = some v) ∧
    (∀ (slots : Dict) (v : Value),
      dget slots "interest_rate" = some v → (loanToolArgs slots).2.1 = v) ∧
    (∀ (env : Env) (text lt : String) (a t : Nat) (q : ℚ),
      (handleTurnState env
        ⟨loanClassify,
          some [("loan_type", some (.str lt)), ("amount", some (.nat a)),
            ("tenure", some (.nat t)), ("interest_rate", some (.num q))]⟩
        text none).tool_result =
      some (calculate_emi_tool env (.nat a) (.num q) (.nat t))) := by
  refine ⟨?_, ?_, ?_⟩
  · intro o st items k v he hne hnd hpn hmem _
    exact ((C5_amended_parse_slot_update o st items he hne hnd hpn).1 k v hmem).1
  · intro slots v h
    simp [loanToolArgs, dgetD, h]
  · intro env text lt a t q
    rfl

/-- C10 witness: a loan turn whose extractor output carries the unrequested
`interest_rate = 12`: it lands in collected slots and is handed to the EMI
tool in place of the 10.5 default. -/
theorem C10_extra_extracted_slots_reach_tool_witness :
    dget (parse_slots_node
        ⟨loanClassify, some [("interest_rate", some (.num (mkRat 12 1)))]⟩
        ⟨"t", some "loan", some "high", some loanClassify, [],
          ["loan_type", "amount", "tenure"], "", none, none, []⟩).slots
      "interest_rate" = some (.num (mkRat 12 1)) ∧
    (loanToolArgs [("interest_rate", Value.num (mkRat 12 1))]).2.1 =
      .num (mkRat 12 1) ∧
    (handleTurnState ⟨0, "t"⟩
        ⟨loanClassify,
          some [("loan_type", some (.str "personal")),
            ("amount", some (.nat 600000)), ("tenure", some (.nat 24)),
            ("interest_rate", some (.num (mkRat 12 1)))]⟩
        "give me a loan" none).tool_result =
      some (calculate_emi_tool ⟨0, "t"⟩ (.nat 600000) (.num (mkRat 12 1))
        (.nat 24)) :=
  ⟨C10_extra_extracted_slots_reach_tool.1 _ _ _ "interest_rate"
      (.num (mkRat 12 1)) rfl (by decide) (by decide) (by decide) (by decide)
      (by decide),
   C10_extra_extracted_slots_reach_tool.2.1 _ _ (by decide),
   C10_extra_extracted_slots_reach_tool.2.2 ⟨0, "t"⟩ "give me a loan"
      "personal" 600000 24 (mkRat 12 1)⟩

/-! ### Pipeline-shape lemmas for the disjointness invariant -/

theorem contextIntent_ne_unknown (ctx i : String) (m : IntentMeta)
    (h : contextIntent ctx = some (i, m)) : i ≠ "unknown" := by
  unfold contextIntent at h
  split_ifs at h <;> simp_all <;> (rcases h with ⟨h1, -⟩; subst h1; decide)

theorem reuseFromContext_ne_unknown (st : ConvState) (i : String)
    (m : IntentMeta) (h : reuseFromContext st = some (i, m)) : i ≠ "unknown" := by
  unfold reuseFromContext at h
  rcases hh : st.history.head? with _ | c <;> rw [hh] at h
  · cases h
  · have h2 : (if isShortAnswer st.text = true then contextIntent c else none) =
        some (i, m) := h
    by_cases hs : isShortAnswer st.text = true
    · rw [if_pos hs] at h2
      exact contextIntent_ne_unknown c i m h2
    · rw [if_neg hs] at h2
      cases h2

theorem route_intent_unknown_pending (o : Oracle) (st : ConvState)
    (h : (route_intent_node o st).intent = some "unknown") :
    (route_intent_node o st).pending_slots = [] := by
  unfold route_intent_node at h ⊢
  rcases hr : reuseFromContext st with _ | ⟨i, m⟩ <;> rw [hr] at h
  · have h2 : o.classify.intent = "unknown" :=
      Option.some.inj (h : some o.classify.intent = some "unknown")
    show (if o.classify.intent ≠ "unknown"
      then o.classify.metadata.required_slots else []) = []
    rw [if_neg (by simp [h2])]
  · exact absurd (Option.some.inj (h : some i = some "unknown"))
      (reuseFromContext_ne_unknown st i m hr)

theorem parse_slots_node_intent (o : Oracle) (st : ConvState) :
    (parse_slots_node o st).intent = st.intent := by
  unfold parse_slots_node
  split
  · rfl
  · rcases he : o.extracted with _ | items
    · rfl
    · exact applyItems_intent items st

theorem parse_slots_node_of_empty (o : Oracle) (st : ConvState)
    (h : st.pending_slots = []) : parse_slots_node o st = st := by
  unfold parse_slots_node
  rw [if_pos (by simp [h])]

theorem call_tool_node_slots_pending (env : Env) (st : ConvState) :
    (call_tool_node env st).slots = st.slots ∧
    (call_tool_node env st).pending_slots = st.pending_slots := by
  rcases hr : st.router_result with _ | r
  · unfold call_tool_node
    rw [hr]
    exact ⟨rfl, rfl⟩
  · unfold call_tool_node
    simp only [hr]
    rcases hh : r.metadata.handler with _ | hname <;> simp only [hh]
    · exact ⟨trivial, trivial⟩
    · constructor <;> (split_ifs <;> rfl)

theorem summarize_node_slots_pending (st : ConvState) :
    (summarize_node st).slots = st.slots ∧
    (summarize_node st).pending_slots = st.pending_slots := by
  unfold summarize_node
  rcases ht : st.tool_result with _ | r <;> exact ⟨rfl, rfl⟩

theorem runGraph_slots_pending (env : Env) (o : Oracle) (st : ConvState) :
    (runGraph env o st).slots =
      (decide_next_node (parse_slots_node o (route_intent_node o st))).slots ∧
    (runGraph env o st).pending_slots =
      (decide_next_node (parse_slots_node o (route_intent_node o st))).pending_slots := by
  unfold runGraph
  rcases hsc : should_continue
      (decide_next_node (parse_slots_node o (route_intent_node o st))) with
    _ | _ | _
  · simp [hsc]
  · simp only [hsc]
    exact summarize_node_slots_pending _
  · simp only [hsc]
    refine ⟨?_, ?_⟩
    · rw [(summarize_node_slots_pending _).1,
        (call_tool_node_slots_pending env _).1]
    · rw [(summarize_node_slots_pending _).2,
        (call_tool_node_slots_pending env _).2]

theorem decide_next_node_unknown_fields (st : ConvState)
    (h : st.intent = some "unknown") :
    (decide_next_node st).pending_slots = st.pending_slots ∧
    (decide_next_node st).slots = st.slots := by
  simp [decide_next_node, h]

theorem decide_next_node_known_fields (st : ConvState)
    (h : ¬ st.intent = some "unknown") :
    (decide_next_node st).pending_slots =
      st.pending_slots.filter (fun s => !(dkeys st.slots).contains s) ∧
    (decide_next_node st).slots = st.slots := by
  simp only [decide_next_node, if_neg h]
  rcases hp : st.pending_slots.filter (fun s => !(dkeys st.slots).contains s) with
    _ | ⟨a, l⟩ <;> simp [hp]

/-! ### C9 -/

/-- C9: for every turn — every environment, classifier and extractor
behaviour, message and context — the pending list returned by `handle_turn`
is disjoint from the final collected slots: any name in the returned
pending list has no binding in the collected-slot dict, since
`decide_next_node` filters collected names out of pending (and unknown-intent
turns carry an empty pending list) and no later stage touches either
field. -/
theorem C9_returned_pending_disjoint_from_slots (env : Env) (o : Oracle)
    (text : String) (context : Option String) (x : String)
    (hx : x ∈ (handle_turn env o text context).pending) :
    dget (handleTurnState env o text context).slots x = none := by
  have hpend : (handle_turn env o text context).pending =
      (runGraph env o (initState text context)).pending_slots := rfl
  have hslots : (handleTurnState env o text context).slots =
      (runGraph env o (initState text context)).slots := rfl
  rw [hpend, (runGraph_slots_pending env o _).2] at hx
  rw [hslots, (runGraph_slots_pending env o _).1]
  by_cases hu : (parse_slots_node o
      (route_intent_node o (initState text context))).intent = some "unknown"
  · -- unknown intent: the pending list is empty, contradiction
    have hri : (route_intent_node o (initState text context)).intent =
        some "unknown" := by
      rw [← parse_slots_node_intent o _]
      exact hu
    have hrp := route_intent_unknown_pending o (initState text context) hri
    have hpe := parse_slots_node_of_empty o _ hrp
    rw [(decide_next_node_unknown_fields _ hu).1, hpe, hrp] at hx
    cases hx
  · -- known intent: pending was filtered against the collected keys
    rw [(decide_next_node_known_fields _ hu).1] at hx
    rw [(decide_next_node_known_fields _ hu).2]
    have hprop := List.of_mem_filter hx
    apply dget_none_of_not_contains
    simpa using hprop

/-- C9 witness: a first-turn credit-card query with nothing extracted leaves
`income` pending and absent from the collected slots. -/
theorem C9_returned_pending_disjoint_from_slots_witness :
    "income" ∈ (handle_turn ⟨0, "t"⟩ ⟨creditCardClassify, none⟩
      "I want a credit card" none).pending ∧
    dget (handleTurnState ⟨0, "t"⟩ ⟨creditCardClassify, none⟩
      "I want a credit card" none).slots "income" = none :=
  ⟨by decide,
   C9_returned_pending_disjoint_from_slots ⟨0, "t"⟩ ⟨creditCardClassify, none⟩
     "I want a credit card" none "income" (by decide)⟩

end BankDemo
